import Mathlib

/-!
Shallow embedding of the azure-dev repository excerpt: the ARM deployments
wrapper (cli/azd/pkg/azapi/deployments.go), the kubectl wrapper
(cli/azd/pkg/tools/kubectl/kubectl.go) and the test mock context builder
(test mocks package).

The cloud SDK and the process runner are external to this code, so every SDK
or process call is modelled as an oracle: a wrapper function takes the
outcome(s) of the calls it makes as explicit arguments, and returns its own
result together with the trace of requests it issued, so that the request
shaping and the call discipline (one Begin, one PollUntilDone, ...) are part
of the embedded function's value.

Go errors are modelled by the inductive `GoError`; `fmt.Errorf("msg: %w", e)`
becomes `GoError.wrapped "msg: " e` (quote characters of the original format
strings are dropped), `errors.As(err, &azcoreResponseError)` becomes
`GoError.asResponseError`, which walks the wrapping chain.
-/

namespace azapi

/-- Model of armresources.DeploymentExtended: only identity fields are kept,
the wrapper never looks inside the value. -/
structure DeploymentExtended where
  id : Option String := none
  name : Option String := none
deriving DecidableEq, Repr

/-- Model of armresources.WhatIfOperationResult; the wrapper never looks
inside the value. -/
structure WhatIfOperationResult where
  status : Option String := none
deriving DecidableEq, Repr

/-- Model of azcore.ResponseError: the HTTP status code, the outcome of
io.ReadAll on RawResponse.Body (`some body` when the read succeeds, `none`
when it fails), and the text responseErr.Error() renders. -/
structure ResponseError where
  statusCode : Int
  bodyReadResult : Option String
  errorText : String
deriving DecidableEq, Repr

/-- Go error values as this code distinguishes them.
`deploymentNotFound` is the sentinel ErrDeploymentNotFound
(= errors.New("deployment not found")); `azureDeploymentError text` is the
value NewAzureDeploymentError(text) builds (its definition lives outside the
examined files; all this code relies on is that it is a fresh error holding
the given text, not a wrap of another error); `wrapped msg inner` is
fmt.Errorf(msg ++ "%w", inner). -/
inductive GoError where
  | responseError (re : ResponseError)
  | errorString (msg : String)
  | deploymentNotFound
  | azureDeploymentError (text : String)
  | wrapped (msg : String) (inner : GoError)
deriving DecidableEq, Repr

/-- errors.As(err, &target) for target *azcore.ResponseError: unwraps the
%w chain and yields the first ResponseError found. -/
def GoError.asResponseError : GoError → Option ResponseError
  | .responseError re => some re
  | .wrapped _ inner => inner.asResponseError
  | _ => none

/-- Whether `target` occurs in the wrapping chain of `e` (target itself,
or inside any number of `wrapped` layers): the errors a caller can reach
with errors.Is / errors.Unwrap. -/
def GoError.contains (e target : GoError) : Bool :=
  if e = target then true
  else
    match e with
    | .wrapped _ inner => inner.contains target
    | _ => false

/-- azure.RawArmTemplate (raw JSON passed through verbatim). -/
abbrev RawArmTemplate := String

/-- azure.ArmParameters (passed through verbatim). -/
abbrev ArmParameters := String

/-- armresources.DeploymentMode. -/
inductive DeploymentMode where
  | incremental
  | complete
deriving DecidableEq, Repr

/-- armresources.DeploymentProperties as this wrapper populates it. -/
structure DeploymentProperties where
  template : RawArmTemplate
  parameters : ArmParameters
  mode : DeploymentMode
deriving DecidableEq, Repr

/-- armresources.Deployment: the create-or-update payload. -/
structure Deployment where
  properties : DeploymentProperties
  location : Option String := none
  tags : List (String × Option String) := []
deriving DecidableEq, Repr

/-- armresources.DeploymentWhatIfSettings (left at its zero value here). -/
structure DeploymentWhatIfSettings where
  resultFormat : Option String := none
deriving DecidableEq, Repr

/-- armresources.DeploymentWhatIfProperties as this wrapper populates it. -/
structure DeploymentWhatIfProperties where
  template : RawArmTemplate
  parameters : ArmParameters
  mode : DeploymentMode
  whatIfSettings : Option DeploymentWhatIfSettings := none
deriving DecidableEq, Repr

/-- armresources.DeploymentWhatIf: the what-if payload. -/
structure DeploymentWhatIf where
  properties : DeploymentWhatIfProperties
  location : Option String := none
deriving DecidableEq, Repr

/-- The requests the wrapper can issue to the SDK deployments client. -/
inductive SdkRequest where
  | beginCreateOrUpdateAtSubscriptionScope (deploymentName : String) (payload : Deployment)
  | beginCreateOrUpdate (resourceGroup deploymentName : String) (payload : Deployment)
  | beginWhatIfAtSubscriptionScope (deploymentName : String) (payload : DeploymentWhatIf)
  | beginWhatIf (resourceGroup deploymentName : String) (payload : DeploymentWhatIf)
  | beginDeleteAtSubscriptionScope (deploymentName : String)
  | pollUntilDone
deriving DecidableEq, Repr

/-- A request that creates or updates a deployment. -/
def SdkRequest.isCreateOrUpdate : SdkRequest → Bool
  | .beginCreateOrUpdateAtSubscriptionScope _ _ => true
  | .beginCreateOrUpdate _ _ _ => true
  | _ => false

/-- A request that deletes a deployment. -/
def SdkRequest.isDelete : SdkRequest → Bool
  | .beginDeleteAtSubscriptionScope _ => true
  | _ => false

/-- A what-if (dry-run) request. -/
def SdkRequest.isWhatIfRequest : SdkRequest → Bool
  | .beginWhatIfAtSubscriptionScope _ _ => true
  | .beginWhatIf _ _ _ => true
  | _ => false

/-- A PollUntilDone call on a poller. -/
def SdkRequest.isPoll : SdkRequest → Bool
  | .pollUntilDone => true
  | _ => false

/-- createDeploymentError (deployments.go): if the error carries an
azcore.ResponseError, build an AzureDeploymentError from the raw response
body (or from the ResponseError's own text when reading the body fails);
every other error is returned unchanged. -/
def createDeploymentError (err : GoError) : GoError :=
  match err.asResponseError with
  | some responseErr =>
    let errorText :=
      match responseErr.bodyReadResult with
      | none => responseErr.errorText
      | some rawBody => rawBody
    .azureDeploymentError errorText
  | none => err

/-- GetSubscriptionDeployment: `sdkGet` is the outcome of
deploymentsClient.GetAtSubscriptionScope(ctx, deploymentName, nil), the
response modelled by its embedded DeploymentExtended. -/
def GetSubscriptionDeployment
    (sdkGet : Except GoError DeploymentExtended) :
    Except GoError DeploymentExtended :=
  match sdkGet with
  | .ok deployment => .ok deployment
  | .error err =>
    match err.asResponseError with
    | some errDetails =>
      if errDetails.statusCode = 404 then .error .deploymentNotFound
      else .error (.wrapped "getting deployment from subscription: " err)
    | none => .error (.wrapped "getting deployment from subscription: " err)

/-- GetResourceGroupDeployment: `sdkGet` is the outcome of
deploymentsClient.Get(ctx, resourceGroupName, deploymentName, nil). -/
def GetResourceGroupDeployment
    (sdkGet : Except GoError DeploymentExtended) :
    Except GoError DeploymentExtended :=
  match sdkGet with
  | .ok deployment => .ok deployment
  | .error err =>
    match err.asResponseError with
    | some errDetails =>
      if errDetails.statusCode = 404 then .error .deploymentNotFound
      else .error (.wrapped "getting deployment from resource group: " err)
    | none => .error (.wrapped "getting deployment from resource group: " err)

/-- The pager loop shared by ListSubscriptionDeployments and
ListResourceGroupDeployments: `pages` is the sequence of outcomes the SDK
pager's NextPage calls produce (each successful page modelled by its Value
slice), `results` the accumulator initialised to the empty non-nil slice.
The Go functions return the pair (slice, error); `none` in the first
component is Go's nil slice. -/
def listPagesLoop :
    List (Except GoError (List DeploymentExtended)) → List DeploymentExtended →
    Option (List DeploymentExtended) × Option GoError
  | [], results => (some results, none)
  | .error err :: _, _ => (none, some err)
  | .ok page :: rest, results => listPagesLoop rest (results ++ page)

/-- ListSubscriptionDeployments: iterate NewListAtSubscriptionScopePager. -/
def ListSubscriptionDeployments
    (pages : List (Except GoError (List DeploymentExtended))) :
    Option (List DeploymentExtended) × Option GoError :=
  listPagesLoop pages []

/-- ListResourceGroupDeployments: iterate
NewListByResourceGroupPager(resourceGroupName). -/
def ListResourceGroupDeployments
    (resourceGroupName : String)
    (pages : List (Except GoError (List DeploymentExtended))) :
    Option (List DeploymentExtended) × Option GoError :=
  let _ := resourceGroupName
  listPagesLoop pages []

/-- DeployToSubscription: shape the Deployment payload, call
BeginCreateOrUpdateAtSubscriptionScope (outcome `sdkBegin`), then
PollUntilDone on the returned poller (outcome `sdkPoll`). The second
component is the trace of SDK calls made. -/
def DeployToSubscription
    (location deploymentName : String)
    (armTemplate : RawArmTemplate) (parameters : ArmParameters)
    (tags : List (String × Option String))
    (sdkBegin : Except GoError Unit)
    (sdkPoll : Except GoError DeploymentExtended) :
    Except GoError DeploymentExtended × List SdkRequest :=
  let payload : Deployment :=
    { properties :=
        { template := armTemplate, parameters := parameters,
          mode := .incremental },
      location := some location,
      tags := tags }
  match sdkBegin with
  | .error err =>
    (.error (.wrapped "starting deployment to subscription: " err),
     [.beginCreateOrUpdateAtSubscriptionScope deploymentName payload])
  | .ok _ =>
    match sdkPoll with
    | .error err =>
      (.error (.wrapped "deploying to subscription:\n\nDeployment Error Details:\n"
        (createDeploymentError err)),
       [.beginCreateOrUpdateAtSubscriptionScope deploymentName payload, .pollUntilDone])
    | .ok deployResult =>
      (.ok deployResult,
       [.beginCreateOrUpdateAtSubscriptionScope deploymentName payload, .pollUntilDone])

/-- DeployToResourceGroup: shape the Deployment payload (no location),
call BeginCreateOrUpdate, then PollUntilDone. -/
def DeployToResourceGroup
    (resourceGroup deploymentName : String)
    (armTemplate : RawArmTemplate) (parameters : ArmParameters)
    (tags : List (String × Option String))
    (sdkBegin : Except GoError Unit)
    (sdkPoll : Except GoError DeploymentExtended) :
    Except GoError DeploymentExtended × List SdkRequest :=
  let payload : Deployment :=
    { properties :=
        { template := armTemplate, parameters := parameters,
          mode := .incremental },
      location := none,
      tags := tags }
  match sdkBegin with
  | .error err =>
    (.error (.wrapped "starting deployment to resource group: " err),
     [.beginCreateOrUpdate resourceGroup deploymentName payload])
  | .ok _ =>
    match sdkPoll with
    | .error err =>
      (.error (.wrapped "deploying to resource group:\n\nDeployment Error Details:\n"
        (createDeploymentError err)),
       [.beginCreateOrUpdate resourceGroup deploymentName payload, .pollUntilDone])
    | .ok deployResult =>
      (.ok deployResult,
       [.beginCreateOrUpdate resourceGroup deploymentName payload, .pollUntilDone])

/-- WhatIfDeployToSubscription: shape the DeploymentWhatIf payload (with an
empty WhatIfSettings and the location), call BeginWhatIfAtSubscriptionScope,
then PollUntilDone. -/
def WhatIfDeployToSubscription
    (location deploymentName : String)
    (armTemplate : RawArmTemplate) (parameters : ArmParameters)
    (sdkBegin : Except GoError Unit)
    (sdkPoll : Except GoError WhatIfOperationResult) :
    Except GoError WhatIfOperationResult × List SdkRequest :=
  let payload : DeploymentWhatIf :=
    { properties :=
        { template := armTemplate, parameters := parameters,
          mode := .incremental,
          whatIfSettings := some {} },
      location := some location }
  match sdkBegin with
  | .error err =>
    (.error (.wrapped "starting deployment to subscription: " err),
     [.beginWhatIfAtSubscriptionScope deploymentName payload])
  | .ok _ =>
    match sdkPoll with
    | .error err =>
      (.error (.wrapped "deploying to subscription:\n\nDeployment Error Details:\n"
        (createDeploymentError err)),
       [.beginWhatIfAtSubscriptionScope deploymentName payload, .pollUntilDone])
    | .ok deployResult =>
      (.ok deployResult,
       [.beginWhatIfAtSubscriptionScope deploymentName payload, .pollUntilDone])

/-- WhatIfDeployToResourceGroup: shape the DeploymentWhatIf payload (no
settings, no location), call BeginWhatIf, then PollUntilDone. -/
def WhatIfDeployToResourceGroup
    (resourceGroup deploymentName : String)
    (armTemplate : RawArmTemplate) (parameters : ArmParameters)
    (sdkBegin : Except GoError Unit)
    (sdkPoll : Except GoError WhatIfOperationResult) :
    Except GoError WhatIfOperationResult × List SdkRequest :=
  let payload : DeploymentWhatIf :=
    { properties :=
        { template := armTemplate, parameters := parameters,
          mode := .incremental,
          whatIfSettings := none },
      location := none }
  match sdkBegin with
  | .error err =>
    (.error (.wrapped "starting deployment to resource group: " err),
     [.beginWhatIf resourceGroup deploymentName payload])
  | .ok _ =>
    match sdkPoll with
    | .error err =>
      (.error (.wrapped "deploying to resource group:\n\nDeployment Error Details:\n"
        (createDeploymentError err)),
       [.beginWhatIf resourceGroup deploymentName payload, .pollUntilDone])
    | .ok deployResult =>
      (.ok deployResult,
       [.beginWhatIf resourceGroup deploymentName payload, .pollUntilDone])

/-- DeleteSubscriptionDeployment: call BeginDeleteAtSubscriptionScope, then
PollUntilDone; the poll's response value is discarded. -/
def DeleteSubscriptionDeployment
    (deploymentName : String)
    (sdkBegin : Except GoError Unit)
    (sdkPoll : Except GoError Unit) :
    Except GoError Unit × List SdkRequest :=
  match sdkBegin with
  | .error err =>
    (.error (.wrapped "starting to delete deployment: " err),
     [.beginDeleteAtSubscriptionScope deploymentName])
  | .ok _ =>
    match sdkPoll with
    | .error err =>
      (.error (.wrapped "deleting deployment operation: " err),
       [.beginDeleteAtSubscriptionScope deploymentName, .pollUntilDone])
    | .ok _ =>
      (.ok (),
       [.beginDeleteAtSubscriptionScope deploymentName, .pollUntilDone])

/-- Go interface-typed JSON-ish values, as the SDK hands raw outputs to
CreateDeploymentOutput. `goNil` is the nil interface value; a Go
map[string]interface value is `obj` with its bindings listed. -/
inductive GoValue where
  | goNil
  | str (s : String)
  | num (n : Int)
  | boolean (b : Bool)
  | arr (elems : List GoValue)
  | obj (fields : List (String × GoValue))

/-- AzCliDeploymentOutput (field Type is `outputType` here, Type being
reserved in Lean). -/
structure AzCliDeploymentOutput where
  outputType : String
  value : GoValue

/-- One loop step of CreateDeploymentOutput: output.(map[string]interface)
then innerValue["type"].(string); a failed type assertion is a Go panic,
modelled as the error branch. A missing map key reads as the nil interface
value. -/
def convertOutputEntry (entry : String × GoValue) :
    Except String (String × AzCliDeploymentOutput) :=
  match entry.2 with
  | .obj innerValue =>
    match (innerValue.lookup "type").getD .goNil with
    | .str t =>
      .ok (entry.1,
        { outputType := t, value := (innerValue.lookup "value").getD .goNil })
    | _ => .error "interface conversion: type assertion failed"
  | _ => .error "interface conversion: type assertion failed"

/-- The range loop of CreateDeploymentOutput: convert each entry in order,
stopping at the first failed type assertion (a Go panic aborts the whole
call, so nothing after it is converted). -/
def createDeploymentOutputLoop :
    List (String × GoValue) → Except String (List (String × AzCliDeploymentOutput))
  | [] => .ok []
  | entry :: rest =>
    match convertOutputEntry entry with
    | .error e => .error e
    | .ok converted =>
      match createDeploymentOutputLoop rest with
      | .error e => .error e
      | .ok others => .ok (converted :: others)

/-- CreateDeploymentOutput (deployments.go): nil input yields the empty
(non-nil) map; otherwise the input is cast to map[string]interface and each
entry converted; any failed cast is a panic, modelled as the error branch
of this total embedding. The result map is modelled as its list of
bindings. -/
def CreateDeploymentOutput (rawOutputs : GoValue) :
    Except String (List (String × AzCliDeploymentOutput)) :=
  match rawOutputs with
  | .goNil => .ok []
  | .obj castInput => createDeploymentOutputLoop castInput
  | _ => .error "interface conversion: type assertion failed"

end azapi

namespace kubectl

open azapi (GoError)

/-- Modelled from the spec: pkg/exec RunResult, the outcome of the generic
process runner (pkg/exec is not among the examined files). -/
structure RunResult where
  exitCode : Int := 0
  stdout : String := ""
  stderr : String := ""
deriving DecidableEq, Repr

/-- Modelled from the spec: pkg/exec RunArgs, the command description handed
to the generic process runner (pkg/exec is not among the examined files; the
builder methods below set the field their name says, and AppendParams
appends to the argument list). -/
structure RunArgs where
  cmd : String
  args : List String
  cwd : Option String := none
  env : Option (List String) := none
  stdin : Option String := none
  enrichError : Bool := false
deriving DecidableEq, Repr

/-- Modelled from the spec: exec.NewRunArgs(cmd, args...). -/
def NewRunArgs (cmd : String) (args : List String) : RunArgs :=
  { cmd := cmd, args := args }

/-- Modelled from the spec: RunArgs.AppendParams(params...). -/
def RunArgs.appendParams (r : RunArgs) (params : List String) : RunArgs :=
  { r with args := r.args ++ params }

/-- Modelled from the spec: RunArgs.WithCwd(cwd). -/
def RunArgs.withCwd (r : RunArgs) (cwd : String) : RunArgs :=
  { r with cwd := some cwd }

/-- Modelled from the spec: RunArgs.WithEnv(env). -/
def RunArgs.withEnv (r : RunArgs) (env : List String) : RunArgs :=
  { r with env := some env }

/-- Modelled from the spec: RunArgs.WithStdIn(reader), the reader modelled by
the string it yields. -/
def RunArgs.withStdIn (r : RunArgs) (input : String) : RunArgs :=
  { r with stdin := some input }

/-- Modelled from the spec: RunArgs.WithEnrichError(b). -/
def RunArgs.withEnrichError (r : RunArgs) (b : Bool) : RunArgs :=
  { r with enrichError := b }

/-- The oracle for exec.CommandRunner.Run: the outcome of running the given
command. -/
abbrev Runner := RunArgs → Except GoError RunResult

/-- KubeCliFlags (kubectl.go). The Namespace field is `ns` here (namespace
being reserved in Lean); DryRun and Output are their string values. -/
structure KubeCliFlags where
  ns : String := ""
  dryRun : String := ""
  output : String := ""
deriving DecidableEq, Repr

/-- The kubectlCli receiver state: the env map set by SetEnv (modelled as an
association list) and the working directory set by Cwd. -/
structure KubectlCli where
  env : List (String × String) := []
  cwd : String := ""
deriving DecidableEq, Repr

/-- environ (kubectl.go): render the env map as KEY=VALUE strings (Go map
iteration order is modelled by the association list's order). -/
def environ (values : List (String × String)) : List String :=
  values.map (fun kv => kv.1 ++ "=" ++ kv.2)

/-- SetEnv (kubectl.go): replace the env field; no command is run, so the
trace of Run calls is empty. -/
def SetEnv (cli : KubectlCli) (envValues : List (String × String)) :
    KubectlCli × List RunArgs :=
  ({ cli with env := envValues }, [])

/-- Cwd (kubectl.go): replace the cwd field; no command is run. -/
def Cwd (cli : KubectlCli) (cwd : String) : KubectlCli × List RunArgs :=
  ({ cli with cwd := cwd }, [])

/-- executeCommandWithArgs (kubectl.go): set enriched-error mode, set the
working directory when the receiver's cwd is non-empty, append the flag
arguments (dry-run, then namespace, then output), and call
commandRunner.Run. Returns Run's outcome and the one-element trace of the
RunArgs passed to Run. -/
def executeCommandWithArgs (cli : KubectlCli) (runner : Runner)
    (args : RunArgs) (flags : Option KubeCliFlags) :
    Except GoError RunResult × List RunArgs :=
  let args := args.withEnrichError true
  let args := if cli.cwd = "" then args else args.withCwd cli.cwd
  let args :=
    match flags with
    | none => args
    | some f =>
      let args :=
        if f.dryRun = "" then args
        else args.appendParams ["--dry-run=" ++ f.dryRun]
      let args := if f.ns = "" then args else args.appendParams ["-n", f.ns]
      if f.output = "" then args else args.appendParams ["-o", f.output]
  (runner args, [args])

/-- Exec (kubectl.go): build RunArgs for the kubectl program from the given
arguments and hand them to executeCommandWithArgs. -/
def Exec (cli : KubectlCli) (runner : Runner) (flags : Option KubeCliFlags)
    (args : List String) : Except GoError RunResult × List RunArgs :=
  executeCommandWithArgs cli runner ((NewRunArgs "kubectl" []).appendParams args) flags

/-- ConfigUseContext (kubectl.go). -/
def ConfigUseContext (cli : KubectlCli) (runner : Runner) (name : String)
    (flags : Option KubeCliFlags) : Except GoError RunResult × List RunArgs :=
  let (res, trace) := Exec cli runner flags ["config", "use-context", name]
  match res with
  | .error err => (.error (.wrapped "failed setting kubectl context: " err), trace)
  | .ok r => (.ok r, trace)

/-- ConfigView (kubectl.go): `kubeConfigDir` is the outcome of
getKubeConfigDir() (defined outside the examined files). -/
def ConfigView (cli : KubectlCli) (runner : Runner)
    (kubeConfigDir : Except GoError String) (merge flatten : Bool)
    (flags : Option KubeCliFlags) : Except GoError RunResult × List RunArgs :=
  match kubeConfigDir with
  | .error err => (.error err, [])
  | .ok dir =>
    let args := ["config", "view"]
    let args := if merge then args ++ ["--merge"] else args
    let args := if flatten then args ++ ["--flatten"] else args
    let runArgs := ((NewRunArgs "kubectl" args).withCwd dir).withEnv (environ cli.env)
    let (res, trace) := executeCommandWithArgs cli runner runArgs flags
    match res with
    | .error err => (.error (.wrapped "kubectl config view: " err), trace)
    | .ok r => (.ok r, trace)

/-- ApplyWithInput (kubectl.go): kubectl apply -f - with the input on stdin
and the receiver's env map passed to the runner. -/
def ApplyWithInput (cli : KubectlCli) (runner : Runner) (input : String)
    (flags : Option KubeCliFlags) : Except GoError RunResult × List RunArgs :=
  let runArgs :=
    ((NewRunArgs "kubectl" ["apply", "-f", "-"]).withEnv (environ cli.env)).withStdIn input
  let (res, trace) := executeCommandWithArgs cli runner runArgs flags
  match res with
  | .error err => (.error (.wrapped "kubectl apply -f: " err), trace)
  | .ok r => (.ok r, trace)

/-- CreateSecretGenericFromLiterals (kubectl.go). -/
def CreateSecretGenericFromLiterals (cli : KubectlCli) (runner : Runner)
    (name : String) (secrets : List String) (flags : Option KubeCliFlags) :
    Except GoError RunResult × List RunArgs :=
  let args := ["create", "secret", "generic", name] ++
    secrets.map (fun secret => "--from-literal=" ++ secret)
  let (res, trace) := Exec cli runner flags args
  match res with
  | .error err =>
    (.error (.wrapped "kubectl create secret generic --from-literal: " err), trace)
  | .ok r => (.ok r, trace)

/-- CreateNamespace (kubectl.go). -/
def CreateNamespace (cli : KubectlCli) (runner : Runner) (name : String)
    (flags : Option KubeCliFlags) : Except GoError RunResult × List RunArgs :=
  let (res, trace) := Exec cli runner flags ["create", "namespace", name]
  match res with
  | .error err => (.error (.wrapped "kubectl create namespace: " err), trace)
  | .ok r => (.ok r, trace)

/-- RolloutStatus (kubectl.go). -/
def RolloutStatus (cli : KubectlCli) (runner : Runner)
    (deploymentName : String) (flags : Option KubeCliFlags) :
    Except GoError RunResult × List RunArgs :=
  let (res, trace) :=
    Exec cli runner flags ["rollout", "status", "deployment/" ++ deploymentName]
  match res with
  | .error err => (.error (.wrapped "deployment rollout failed, " err), trace)
  | .ok r => (.ok r, trace)

/-- A directory tree as os.ReadDir presents it: a regular file with the
outcome of os.ReadFile on it, or a directory with the outcome of os.ReadDir
on it (entries in the listed order). -/
inductive FsEntry where
  | file (name : String) (content : Except GoError String) : FsEntry
  | dir (name : String) (listing : Except GoError (List FsEntry)) : FsEntry

/-- filepath.Ext: the suffix of the name starting at its final dot, "" when
the name has no dot. -/
def fileExt (name : String) : String :=
  match (name.splitOn ".").reverse with
  | [] => ""
  | [_] => ""
  | last :: _ => "." ++ last

/-- filepath.Join of a directory and an entry name. -/
def joinPath (dir name : String) : String := dir ++ "/" ++ name

/-- The oracle for envsubst.Eval (the drone/envsubst library, external to
this repository): the substituted text for a template and a variable
resolver, or a substitution error. -/
abbrev SubstEval := String → (String → String) → Except GoError String

/-- applyTemplate (kubectl.go): read the manifest file (outcome `content`),
substitute environment variables with envsubst.Eval — a variable resolves to
the receiver's env map entry when present, otherwise to the process
environment `osEnv` — and apply the substituted text via ApplyWithInput. -/
def applyTemplate (cli : KubectlCli) (runner : Runner) (substEval : SubstEval)
    (osEnv : String → String) (filePath : String)
    (content : Except GoError String) (flags : Option KubeCliFlags) :
    Except GoError Unit × List RunArgs :=
  match content with
  | .error err =>
    (.error (.wrapped ("failed reading manifest file " ++ filePath ++ ", ") err), [])
  | .ok yaml =>
    match substEval yaml (fun name =>
        match cli.env.lookup name with
        | some val => val
        | none => osEnv name) with
    | .error err => (.error (.wrapped "failed replacing env vars, " err), [])
    | .ok replaced =>
      let (res, trace) := ApplyWithInput cli runner replaced flags
      match res with
      | .error err =>
        (.error (.wrapped ("failed applying file " ++ filePath ++ ", ") err), trace)
      | .ok _ => (.ok (), trace)

/-- applyTemplates (kubectl.go), the loop over one directory's entries: a
subdirectory is recursed into (its listing opened), a file with extension
.yaml or .yml is applied with applyTemplate, any other file is skipped; the
first failure stops the loop. -/
def applyEntries (cli : KubectlCli) (runner : Runner) (substEval : SubstEval)
    (osEnv : String → String) (flags : Option KubeCliFlags) :
    String → List FsEntry → Except GoError Unit × List RunArgs
  | _, [] => (.ok (), [])
  | directoryPath, .dir name (.error err) :: _ =>
    -- the recursive applyTemplates call fails reading the subdirectory and
    -- the caller wraps that failure
    let entryPath := joinPath directoryPath name
    (.error (.wrapped ("failed applying templates at " ++ entryPath ++ ", ")
      (.wrapped ("failed reading files in path, " ++ entryPath ++ ", ") err)), [])
  | directoryPath, .dir name (.ok sub) :: rest =>
    let entryPath := joinPath directoryPath name
    match applyEntries cli runner substEval osEnv flags entryPath sub with
    | (.error err, trace) =>
      (.error (.wrapped ("failed applying templates at " ++ entryPath ++ ", ") err), trace)
    | (.ok _, trace) =>
      let r := applyEntries cli runner substEval osEnv flags directoryPath rest
      (r.fst, trace ++ r.snd)
  | directoryPath, .file name content :: rest =>
    let entryPath := joinPath directoryPath name
    let ext := fileExt name
    if ext = ".yaml" ∨ ext = ".yml" then
      match applyTemplate cli runner substEval osEnv entryPath content flags with
      | (.error err, trace) =>
        (.error (.wrapped ("failed applying template " ++ entryPath ++ ", ") err), trace)
      | (.ok _, trace) =>
        let r := applyEntries cli runner substEval osEnv flags directoryPath rest
        (r.fst, trace ++ r.snd)
    else
      applyEntries cli runner substEval osEnv flags directoryPath rest

/-- applyTemplates (kubectl.go) on a directory path: `listing` is the
outcome of os.ReadDir on it. -/
def applyTemplates (cli : KubectlCli) (runner : Runner) (substEval : SubstEval)
    (osEnv : String → String) (directoryPath : String)
    (listing : Except GoError (List FsEntry)) (flags : Option KubeCliFlags) :
    Except GoError Unit × List RunArgs :=
  match listing with
  | .error err =>
    (.error (.wrapped ("failed reading files in path, " ++ directoryPath ++ ", ") err), [])
  | .ok entries => applyEntries cli runner substEval osEnv flags directoryPath entries

/-- Apply (kubectl.go): applyTemplates with one more layer of wrapping. -/
def Apply (cli : KubectlCli) (runner : Runner) (substEval : SubstEval)
    (osEnv : String → String) (path : String)
    (listing : Except GoError (List FsEntry)) (flags : Option KubeCliFlags) :
    Except GoError Unit × List RunArgs :=
  let (res, trace) := applyTemplates cli runner substEval osEnv path listing flags
  match res with
  | .error err => (.error (.wrapped "failed process templates, " err), trace)
  | .ok _ => (.ok (), trace)

end kubectl

namespace mocks

/-- The interface types the mock context registers in the dependency
injection container, each named by the Go type the registration closure
returns. -/
inductive ServiceKey where
  | serviceLocator
  | tokenCredential
  | httpClient
  | commandRunner
  | console
  | fileConfigManager
  | featureManager
  | corePolicyClientOptions
  | armClientOptions
deriving DecidableEq, Repr

/-- The concrete values NewMockContext holds, each named by the MockContext
field the registration closure reads. -/
inductive ServiceInstance where
  | containerItself
  | credentials
  | httpClient
  | commandRunner
  | console
  | configManager
  | alphaFeaturesManager
  | coreClientOptions
  | armClientOptions
deriving DecidableEq, Repr

/-- Modelled from the spec: ioc.NestedContainer (pkg/ioc is not among the
examined files), a registry of singletons keyed by interface type. -/
structure NestedContainer where
  registrations : List (ServiceKey × ServiceInstance) := []
deriving DecidableEq, Repr

/-- Modelled from the spec: NestedContainer.MustRegisterSingleton records
which value the container yields for the given type. -/
def MustRegisterSingleton (c : NestedContainer) (key : ServiceKey)
    (value : ServiceInstance) : NestedContainer :=
  { registrations := c.registrations ++ [(key, value)] }

/-- Modelled from the spec: container resolution returns the singleton
registered for the requested type. -/
def resolve (c : NestedContainer) (key : ServiceKey) : Option ServiceInstance :=
  c.registrations.lookup key

/-- The transport a policy.ClientOptions carries: the mock HTTP client, or
the zero value (the SDK default transport). -/
inductive Transport where
  | mockHttpClient
  | defaultTransport
deriving DecidableEq, Repr

/-- Model of azcore/policy ClientOptions: only the Transport field is set by
this code. -/
structure PolicyClientOptions where
  transport : Transport := .defaultTransport
deriving DecidableEq, Repr

/-- Model of arm.ClientOptions: it embeds a policy.ClientOptions. -/
structure ArmClientOptions where
  clientOptions : PolicyClientOptions := {}
deriving DecidableEq, Repr

/-- Model of the MockContext struct (mock_context.go): each component field
is represented by its identity tag, the two client-options fields by their
modelled values, and the container by its registration list. -/
structure MockContext where
  credentials : ServiceInstance
  console : ServiceInstance
  httpClient : ServiceInstance
  coreClientOptions : PolicyClientOptions
  armClientOptions : ArmClientOptions
  commandRunner : ServiceInstance
  configManager : ServiceInstance
  container : NestedContainer
deriving DecidableEq, Repr

/-- registerCommonMocks (mock_context.go): the nine MustRegisterSingleton
calls, in source order. -/
def registerCommonMocks (c : NestedContainer) : NestedContainer :=
  let c := MustRegisterSingleton c .serviceLocator .containerItself
  let c := MustRegisterSingleton c .tokenCredential .credentials
  let c := MustRegisterSingleton c .httpClient .httpClient
  let c := MustRegisterSingleton c .commandRunner .commandRunner
  let c := MustRegisterSingleton c .console .console
  let c := MustRegisterSingleton c .fileConfigManager .configManager
  let c := MustRegisterSingleton c .featureManager .alphaFeaturesManager
  let c := MustRegisterSingleton c .corePolicyClientOptions .coreClientOptions
  MustRegisterSingleton c .armClientOptions .armClientOptions

/-- NewMockContext (mock_context.go): build the mock HTTP client, config
manager and empty config, point both client options at the mock HTTP client
as transport, assemble the MockContext and register the common mocks into
its fresh container. -/
def NewMockContext : MockContext :=
  let coreClientOptions : PolicyClientOptions := { transport := .mockHttpClient }
  let armClientOptions : ArmClientOptions :=
    { clientOptions := { transport := .mockHttpClient } }
  let mockContext : MockContext :=
    { credentials := .credentials
      console := .console
      httpClient := .httpClient
      coreClientOptions := coreClientOptions
      armClientOptions := armClientOptions
      commandRunner := .commandRunner
      configManager := .configManager
      container := {} }
  { mockContext with container := registerCommonMocks mockContext.container }

end mocks

/-! Spec-side helper definitions used by the theorems below. -/

namespace azapi

/-- Whether a Go error carries (anywhere in its wrapping chain) an
azcore.ResponseError with HTTP status 404: the condition
errors.As(err, &errDetails) && errDetails.StatusCode == 404. -/
def is404 (e : GoError) : Bool :=
  match e.asResponseError with
  | some re => if re.statusCode = 404 then true else false
  | none => false

/-- The text createDeploymentError renders for a ResponseError: the raw
response body, or the error text when the body cannot be read. -/
def responseErrorText (re : ResponseError) : String :=
  re.bodyReadResult.getD re.errorText

/-- Whether an Except value is the success branch. -/
def exceptIsOk {ε α : Type} : Except ε α → Bool
  | .ok _ => true
  | .error _ => false

/-- The behaviour C2 describes for one long-running operation, given the
outcomes of its Begin call and of PollUntilDone: the trace is the Begin
request followed by exactly one poll when Begin succeeded (and no poll when
it failed); the operation succeeds with exactly the poller's result; a Begin
error is wrapped with the operation's start message; a poll error is passed
through `transform` and wrapped with the operation's poll message. -/
def LroSpec {α : Type} (startMsg pollMsg : String)
    (transform : GoError → GoError) (beginReq : SdkRequest)
    (sdkBegin : Except GoError Unit) (sdkPoll : Except GoError α)
    (out : Except GoError α × List SdkRequest) : Prop :=
  out.snd = beginReq ::
    (match sdkBegin with
     | .error _ => []
     | .ok _ => [SdkRequest.pollUntilDone])
  ∧ (∀ v : α, out.fst = .ok v ↔ sdkBegin = .ok () ∧ sdkPoll = .ok v)
  ∧ (∀ e : GoError, sdkBegin = .error e → out.fst = .error (.wrapped startMsg e))
  ∧ (∀ e : GoError, sdkBegin = .ok () → sdkPoll = .error e →
      out.fst = .error (.wrapped pollMsg (transform e)))

/-- Whether one raw output entry has the shape CreateDeploymentOutput can
convert without panicking: a map carrying a string-valued "type" key. -/
def goodOutputEntry (entry : String × GoValue) : Bool :=
  match entry.2 with
  | .obj innerValue =>
    match (innerValue.lookup "type").getD .goNil with
    | .str _ => true
    | _ => false
  | _ => false

/-- The "type" string a well-shaped raw output entry value carries. -/
def outputTypeOf (v : GoValue) : String :=
  match v with
  | .obj innerValue =>
    match (innerValue.lookup "type").getD .goNil with
    | .str t => t
    | _ => ""
  | _ => ""

/-- The "value" entry of a raw output entry value (the nil interface value
when absent). -/
def outputValueOf (v : GoValue) : GoValue :=
  match v with
  | .obj innerValue => (innerValue.lookup "value").getD .goNil
  | _ => .goNil

end azapi

namespace kubectl

open azapi (GoError)

/-- The flag arguments C5 describes, in their fixed order: --dry-run=value,
then -n namespace, then -o output, each present exactly when its field is
non-empty. -/
def flagList : Option KubeCliFlags → List String
  | none => []
  | some f =>
    (if f.dryRun = "" then [] else ["--dry-run=" ++ f.dryRun]) ++
    (if f.ns = "" then [] else ["-n", f.ns]) ++
    (if f.output = "" then [] else ["-o", f.output])

/-- The working directory the receiver contributes: none when Cwd was never
set to a non-empty string. -/
def cwdOpt (cli : KubectlCli) : Option String :=
  if cli.cwd = "" then none else some cli.cwd

/-- Closed form of what executeCommandWithArgs passes to the process
runner, given the RunArgs an operation built. -/
def finalRunArgs (cli : KubectlCli) (args : RunArgs) (flags : Option KubeCliFlags) : RunArgs :=
  { args with
    enrichError := true,
    cwd := if cli.cwd = "" then args.cwd else some cli.cwd,
    args := args.args ++ flagList flags }

/-- The well-formedness C5 asserts of every command passed to
commandRunner.Run: program kubectl, enriched-error mode set, the working
directory set when the receiver's cwd is non-empty, and the flag arguments
as a suffix (after the operation's own arguments). -/
def wellFormedKubectlArgs (cli : KubectlCli) (flags : Option KubeCliFlags)
    (r : RunArgs) : Bool :=
  r.cmd == "kubectl" && r.enrichError &&
    (cli.cwd == "" || r.cwd == some cli.cwd) &&
    decide (flagList flags <:+ r.args)

/-- The command C6 says each manifest is applied with, written from the
claim's words: kubectl apply -f - with the substituted text on stdin, the
env map passed along, and the flag arguments appended. -/
def applyInputRunArgsSpec (cli : KubectlCli) (input : String)
    (flags : Option KubeCliFlags) : RunArgs :=
  { cmd := "kubectl", args := ["apply", "-f", "-"] ++ flagList flags,
    cwd := cwdOpt cli, env := some (environ cli.env), stdin := some input,
    enrichError := true }

/-- The variable resolver C6 describes: the env map entry when present,
otherwise the process environment. -/
def claimResolver (cli : KubectlCli) (osEnv : String → String) : String → String :=
  fun name => (cli.env.lookup name).getD (osEnv name)

/-- The processing C6 claims for one manifest file, written from the claim's
words: read the file, substitute environment variables with `claimResolver`,
and apply the substituted text via kubectl apply -f - on stdin; the step
fails with the failing action's own error. -/
def applyFileClaim (cli : KubectlCli) (runner : Runner) (substEval : SubstEval)
    (osEnv : String → String) (content : Except GoError String)
    (flags : Option KubeCliFlags) : Except GoError Unit × List RunArgs :=
  match content with
  | .error err => (.error err, [])
  | .ok yaml =>
    match substEval yaml (claimResolver cli osEnv) with
    | .error err => (.error err, [])
    | .ok replaced =>
      let args := applyInputRunArgsSpec cli replaced flags
      match runner args with
      | .error err => (.error err, [args])
      | .ok _ => (.ok (), [args])

/-- The traversal C6 claims for Apply, written from the claim's words (the
reference this file compares applyTemplates against): visit entries in
order, recurse into subdirectories, process exactly the regular entries
whose extension is .yaml or .yml with `applyFileClaim`, skip every other
extension, and stop at the first failing entry, reporting that entry's own
error. -/
def applyEntriesClaim (cli : KubectlCli) (runner : Runner) (substEval : SubstEval)
    (osEnv : String → String) (flags : Option KubeCliFlags) :
    List FsEntry → Except GoError Unit × List RunArgs
  | [] => (.ok (), [])
  | .dir _ (.error err) :: _ => (.error err, [])
  | .dir _ (.ok sub) :: rest =>
    match applyEntriesClaim cli runner substEval osEnv flags sub with
    | (.error err, trace) => (.error err, trace)
    | (.ok _, trace) =>
      let r := applyEntriesClaim cli runner substEval osEnv flags rest
      (r.fst, trace ++ r.snd)
  | .file name content :: rest =>
    if fileExt name = ".yaml" ∨ fileExt name = ".yml" then
      match applyFileClaim cli runner substEval osEnv content flags with
      | (.error err, trace) => (.error err, trace)
      | (.ok _, trace) =>
        let r := applyEntriesClaim cli runner substEval osEnv flags rest
        (r.fst, trace ++ r.snd)
    else applyEntriesClaim cli runner substEval osEnv flags rest

/-- The claimed behaviour of Apply on a directory path whose ReadDir
outcome is `listing`. -/
def applyClaim (cli : KubectlCli) (runner : Runner) (substEval : SubstEval)
    (osEnv : String → String) (listing : Except GoError (List FsEntry))
    (flags : Option KubeCliFlags) : Except GoError Unit × List RunArgs :=
  match listing with
  | .error err => (.error err, [])
  | .ok entries => applyEntriesClaim cli runner substEval osEnv flags entries

end kubectl

/-! Theorems. -/

namespace azapi

/-- Closed form of GetSubscriptionDeployment on an SDK failure. -/
theorem getSubscriptionDeployment_error_eq (e : GoError) :
    GetSubscriptionDeployment (.error e) =
      if is404 e then .error .deploymentNotFound
      else .error (.wrapped "getting deployment from subscription: " e) := by
  cases h : e.asResponseError with
  | none => simp [GetSubscriptionDeployment, is404, h]
  | some re =>
    by_cases h4 : re.statusCode = 404
    · simp [GetSubscriptionDeployment, is404, h, h4]
    · simp [GetSubscriptionDeployment, is404, h, h4]

/-- Closed form of GetResourceGroupDeployment on an SDK failure. -/
theorem getResourceGroupDeployment_error_eq (e : GoError) :
    GetResourceGroupDeployment (.error e) =
      if is404 e then .error .deploymentNotFound
      else .error (.wrapped "getting deployment from resource group: " e) := by
  cases h : e.asResponseError with
  | none => simp [GetResourceGroupDeployment, is404, h]
  | some re =>
    by_cases h4 : re.statusCode = 404
    · simp [GetResourceGroupDeployment, is404, h, h4]
    · simp [GetResourceGroupDeployment, is404, h, h4]

/-- C8: GetSubscriptionDeployment and GetResourceGroupDeployment return the
sentinel ErrDeploymentNotFound exactly when the SDK call fails with an
azcore.ResponseError whose StatusCode is 404; every other failure is
returned wrapped with a context message, and on success the deployment from
the response is returned with no error. -/
theorem c8_get_deployment_not_found_sentinel :
    ∀ r : Except GoError DeploymentExtended,
      (GetSubscriptionDeployment r = .error .deploymentNotFound ↔
        ∃ e : GoError, r = .error e ∧ is404 e = true)
    ∧ (GetResourceGroupDeployment r = .error .deploymentNotFound ↔
        ∃ e : GoError, r = .error e ∧ is404 e = true)
    ∧ (∀ d : DeploymentExtended, GetSubscriptionDeployment r = .ok d ↔ r = .ok d)
    ∧ (∀ d : DeploymentExtended, GetResourceGroupDeployment r = .ok d ↔ r = .ok d)
    ∧ (∀ e : GoError, is404 e = false →
        GetSubscriptionDeployment (.error e) =
            .error (.wrapped "getting deployment from subscription: " e)
        ∧ GetResourceGroupDeployment (.error e) =
            .error (.wrapped "getting deployment from resource group: " e)) := by
  intro r
  refine ⟨?_, ?_, ?_, ?_, ?_⟩
  · cases r with
    | ok d => simp [GetSubscriptionDeployment]
    | error e =>
      rw [getSubscriptionDeployment_error_eq]
      by_cases h4 : is404 e
      · simp [h4]
      · simp [h4]
  · cases r with
    | ok d => simp [GetResourceGroupDeployment]
    | error e =>
      rw [getResourceGroupDeployment_error_eq]
      by_cases h4 : is404 e
      · simp [h4]
      · simp [h4]
  · intro d
    cases r with
    | ok d2 => simp [GetSubscriptionDeployment]
    | error e =>
      rw [getSubscriptionDeployment_error_eq]
      by_cases h4 : is404 e
      · simp [h4]
      · simp [h4]
  · intro d
    cases r with
    | ok d2 => simp [GetResourceGroupDeployment]
    | error e =>
      rw [getResourceGroupDeployment_error_eq]
      by_cases h4 : is404 e
      · simp [h4]
      · simp [h4]
  · intro e h4
    rw [getSubscriptionDeployment_error_eq, getResourceGroupDeployment_error_eq]
    simp [h4]

/-- A concrete instantiation of the C8 theorem, evaluating both operations
at a 404 ResponseError. -/
theorem c8_get_deployment_not_found_sentinel_witness :
    GetSubscriptionDeployment
        (.error (.responseError
          { statusCode := 404, bodyReadResult := some "not found", errorText := "GET 404" })) =
      .error .deploymentNotFound
  ∧ GetResourceGroupDeployment (.ok { name := some "dep" }) = .ok { name := some "dep" } := by
  have h := c8_get_deployment_not_found_sentinel
    (.error (.responseError
      { statusCode := 404, bodyReadResult := some "not found", errorText := "GET 404" }))
  refine ⟨?_, ?_⟩
  · exact (h.1).mpr ⟨_, rfl, by decide⟩
  · exact ((c8_get_deployment_not_found_sentinel (.ok { name := some "dep" })).2.2.2.1
      { name := some "dep" }).mpr rfl

end azapi

namespace azapi

/-- A 404 ResponseError as the SDK surfaces it. -/
def sdk404Error : GoError :=
  .responseError
    { statusCode := 404, bodyReadResult := some "deployment missing", errorText := "GET 404" }

/-- A 500 ResponseError as the SDK surfaces it. -/
def sdk500Error : GoError :=
  .responseError
    { statusCode := 500, bodyReadResult := some "boom", errorText := "GET 500" }

/-- C1 counterexample: the wrapper does inspect errors to decide which
distinct error value to return. Two SDK failures that differ only in their
HTTP status code are mapped to structurally different results: the 404 one
becomes the sentinel ErrDeploymentNotFound, which does not contain (is not a
re-wrap of) the SDK error, while the 500 one is re-wrapped; and
createDeploymentError likewise replaces a ResponseError by a fresh
AzureDeploymentError that does not contain the error it received. -/
theorem c1_counterexample_error_classification :
    GetSubscriptionDeployment (.error sdk404Error) = .error .deploymentNotFound
  ∧ GetSubscriptionDeployment (.error sdk500Error) =
      .error (.wrapped "getting deployment from subscription: " sdk500Error)
  ∧ GoError.contains .deploymentNotFound sdk404Error = false
  ∧ createDeploymentError sdk500Error = .azureDeploymentError "boom"
  ∧ GoError.contains (.azureDeploymentError "boom") sdk500Error = false := by
  refine ⟨rfl, rfl, by decide, rfl, by decide⟩

/-- C1 (amended): the wrapper performs two error classifications of its own,
and no more: GetSubscriptionDeployment and GetResourceGroupDeployment map an
SDK failure carrying an azcore.ResponseError with StatusCode 404 to the
sentinel ErrDeploymentNotFound and wrap every other SDK failure with a
context message; and createDeploymentError replaces an error carrying a
ResponseError by an AzureDeploymentError built from the raw response body
(or from the error's own text when the body cannot be read), returning every
other error unchanged. Polling and pagination stay with the SDK (the
operations' call traces, settled with C2 and C3). -/
theorem c1_amended_error_classification :
    ∀ e : GoError,
      (GetSubscriptionDeployment (.error e) =
        if is404 e then .error .deploymentNotFound
        else .error (.wrapped "getting deployment from subscription: " e))
    ∧ (GetResourceGroupDeployment (.error e) =
        if is404 e then .error .deploymentNotFound
        else .error (.wrapped "getting deployment from resource group: " e))
    ∧ (e.asResponseError = none → createDeploymentError e = e)
    ∧ (∀ re : ResponseError, e.asResponseError = some re →
        createDeploymentError e = .azureDeploymentError (responseErrorText re)) := by
  intro e
  refine ⟨getSubscriptionDeployment_error_eq e, getResourceGroupDeployment_error_eq e,
    ?_, ?_⟩
  · intro h
    simp [createDeploymentError, h]
  · intro re h
    cases hb : re.bodyReadResult with
    | none => simp [createDeploymentError, h, responseErrorText, hb]
    | some rawBody => simp [createDeploymentError, h, responseErrorText, hb]

/-- A concrete instantiation of the amended C1 theorem at a 500
ResponseError whose body cannot be read. -/
theorem c1_amended_error_classification_witness :
    createDeploymentError
        (.responseError { statusCode := 500, bodyReadResult := none, errorText := "GET 500" }) =
      .azureDeploymentError "GET 500" := by
  exact (c1_amended_error_classification
    (.responseError { statusCode := 500, bodyReadResult := none, errorText := "GET 500" })).2.2.2
    { statusCode := 500, bodyReadResult := none, errorText := "GET 500" } rfl

/-- The pager loop on a run of successful pages appends their values. -/
theorem listPagesLoop_all_ok (vals : List (List DeploymentExtended)) :
    ∀ acc : List DeploymentExtended,
      listPagesLoop (vals.map Except.ok) acc = (some (acc ++ vals.flatten), none) := by
  induction vals with
  | nil => intro acc; simp [listPagesLoop]
  | cons v rest ih =>
    intro acc
    simp [listPagesLoop, ih, List.append_assoc]

/-- The pager loop stops at the first failing page and surfaces its error
unwrapped, dropping the accumulator. -/
theorem listPagesLoop_first_error (vals : List (List DeploymentExtended)) (e : GoError)
    (rest : List (Except GoError (List DeploymentExtended))) :
    ∀ acc : List DeploymentExtended,
      listPagesLoop (vals.map Except.ok ++ .error e :: rest) acc = (none, some e) := by
  induction vals with
  | nil => intro acc; simp [listPagesLoop]
  | cons v vs ih => intro acc; simp [listPagesLoop, ih]

/-- C3: ListSubscriptionDeployments and ListResourceGroupDeployments return
the concatenation, in page order, of the Value slices of the pager's pages
(the empty non-nil slice when there are no pages); when fetching a page
fails, the page error is returned unwrapped together with a nil slice and
every already-accumulated page is discarded. -/
theorem c3_list_deployments_concatenate_pages :
    ∀ (resourceGroupName : String) (vals : List (List DeploymentExtended))
      (e : GoError) (rest : List (Except GoError (List DeploymentExtended))),
      ListSubscriptionDeployments [] = (some [], none)
    ∧ ListSubscriptionDeployments (vals.map Except.ok) = (some vals.flatten, none)
    ∧ ListSubscriptionDeployments (vals.map Except.ok ++ .error e :: rest) = (none, some e)
    ∧ ListResourceGroupDeployments resourceGroupName [] = (some [], none)
    ∧ ListResourceGroupDeployments resourceGroupName (vals.map Except.ok) =
        (some vals.flatten, none)
    ∧ ListResourceGroupDeployments resourceGroupName (vals.map Except.ok ++ .error e :: rest) =
        (none, some e) := by
  intro resourceGroupName vals e rest
  refine ⟨rfl, ?_, ?_, rfl, ?_, ?_⟩
  · simpa using listPagesLoop_all_ok vals []
  · simpa using listPagesLoop_first_error vals e rest []
  · simpa [ListResourceGroupDeployments] using listPagesLoop_all_ok vals []
  · simpa [ListResourceGroupDeployments] using listPagesLoop_first_error vals e rest []

end azapi

namespace azapi

/-- The poll failure used to refute C2 as stated. -/
def pollResponseError : GoError :=
  .responseError
    { statusCode := 500, bodyReadResult := some "quota exceeded", errorText := "PUT 500" }

/-- C2 counterexample: when PollUntilDone fails with an azcore.ResponseError,
DeployToSubscription does not wrap that error with a context message: it
wraps a freshly built AzureDeploymentError, and the error it received from
the poller occurs nowhere in the returned error's wrapping chain. -/
theorem c2_counterexample_poll_error_replaced :
    (DeployToSubscription "eastus2" "dep" "template" "params" []
        (.ok ()) (.error pollResponseError)).fst =
      .error (.wrapped "deploying to subscription:\n\nDeployment Error Details:\n"
        (.azureDeploymentError "quota exceeded"))
  ∧ GoError.contains
      (.wrapped "deploying to subscription:\n\nDeployment Error Details:\n"
        (.azureDeploymentError "quota exceeded"))
      pollResponseError = false := by
  refine ⟨rfl, by decide⟩

/-- C2 (amended): every long-running operation calls the SDK's Begin
operation and then exactly one PollUntilDone on the returned poller (none
when Begin fails); it succeeds with exactly the poller's result and fails
exactly when the Begin call or the poll fails; a Begin error is wrapped with
the operation's context message, and a poll error is wrapped with the
operation's context message after createDeploymentError has been applied to
it (which replaces a ResponseError by an AzureDeploymentError);
DeleteSubscriptionDeployment wraps its poll error directly. -/
theorem c2_amended_lro_delegation :
    ∀ (location resourceGroup deploymentName : String)
      (armTemplate : RawArmTemplate) (parameters : ArmParameters)
      (tags : List (String × Option String))
      (sdkBegin : Except GoError Unit)
      (sdkPollD : Except GoError DeploymentExtended)
      (sdkPollW : Except GoError WhatIfOperationResult)
      (sdkPollU : Except GoError Unit),
      LroSpec "starting deployment to subscription: "
        "deploying to subscription:\n\nDeployment Error Details:\n"
        createDeploymentError
        (.beginCreateOrUpdateAtSubscriptionScope deploymentName
          { properties :=
              { template := armTemplate, parameters := parameters, mode := .incremental },
            location := some location, tags := tags })
        sdkBegin sdkPollD
        (DeployToSubscription location deploymentName armTemplate parameters tags
          sdkBegin sdkPollD)
    ∧ LroSpec "starting deployment to resource group: "
        "deploying to resource group:\n\nDeployment Error Details:\n"
        createDeploymentError
        (.beginCreateOrUpdate resourceGroup deploymentName
          { properties :=
              { template := armTemplate, parameters := parameters, mode := .incremental },
            location := none, tags := tags })
        sdkBegin sdkPollD
        (DeployToResourceGroup resourceGroup deploymentName armTemplate parameters tags
          sdkBegin sdkPollD)
    ∧ LroSpec "starting deployment to subscription: "
        "deploying to subscription:\n\nDeployment Error Details:\n"
        createDeploymentError
        (.beginWhatIfAtSubscriptionScope deploymentName
          { properties :=
              { template := armTemplate, parameters := parameters, mode := .incremental,
                whatIfSettings := some {} },
            location := some location })
        sdkBegin sdkPollW
        (WhatIfDeployToSubscription location deploymentName armTemplate parameters
          sdkBegin sdkPollW)
    ∧ LroSpec "starting deployment to resource group: "
        "deploying to resource group:\n\nDeployment Error Details:\n"
        createDeploymentError
        (.beginWhatIf resourceGroup deploymentName
          { properties :=
              { template := armTemplate, parameters := parameters, mode := .incremental,
                whatIfSettings := none },
            location := none })
        sdkBegin sdkPollW
        (WhatIfDeployToResourceGroup resourceGroup deploymentName armTemplate parameters
          sdkBegin sdkPollW)
    ∧ LroSpec "starting to delete deployment: " "deleting deployment operation: "
        (fun e => e)
        (.beginDeleteAtSubscriptionScope deploymentName)
        sdkBegin sdkPollU
        (DeleteSubscriptionDeployment deploymentName sdkBegin sdkPollU) := by
  intro location resourceGroup deploymentName armTemplate parameters tags
    sdkBegin sdkPollD sdkPollW sdkPollU
  refine ⟨?_, ?_, ?_, ?_, ?_⟩ <;>
  · cases sdkBegin with
    | error e =>
      refine ⟨rfl, ?_, ?_, ?_⟩
      · intro v
        simp [DeployToSubscription, DeployToResourceGroup, WhatIfDeployToSubscription,
          WhatIfDeployToResourceGroup, DeleteSubscriptionDeployment]
      · intro e2 h
        cases h
        rfl
      · intro e2 h hp
        simp at h
    | ok u =>
      cases u
      cases sdkPollD <;> cases sdkPollW <;> cases sdkPollU <;>
        refine ⟨rfl, ?_, ?_, ?_⟩ <;>
        first
        | (intro v; simp [DeployToSubscription, DeployToResourceGroup,
            WhatIfDeployToSubscription, WhatIfDeployToResourceGroup,
            DeleteSubscriptionDeployment]; done)
        | (intro e2 h; simp at h; done)
        | (intro e2 h hp; simp at hp; done)
        | (intro e2 h hp; simp at hp; subst hp; rfl)

end azapi

namespace azapi

/-- C4: the what-if operations are dry-runs. Whatever the SDK outcomes, every
request WhatIfDeployToSubscription and WhatIfDeployToResourceGroup issue is
either a BeginWhatIf* request (carrying a DeploymentWhatIf payload) or a
poll on its poller, and none is a create-or-update or delete request; the
first request issued is exactly the BeginWhatIf* request with the shaped
DeploymentWhatIf payload. -/
theorem c4_whatif_is_dry_run :
    ∀ (location resourceGroup deploymentName : String)
      (armTemplate : RawArmTemplate) (parameters : ArmParameters)
      (sdkBegin : Except GoError Unit)
      (sdkPoll : Except GoError WhatIfOperationResult),
      ((WhatIfDeployToSubscription location deploymentName armTemplate parameters
          sdkBegin sdkPoll).snd.all
        (fun r => (r.isWhatIfRequest || r.isPoll) && !(r.isCreateOrUpdate || r.isDelete)) = true)
    ∧ ((WhatIfDeployToSubscription location deploymentName armTemplate parameters
          sdkBegin sdkPoll).snd.head? =
        some (.beginWhatIfAtSubscriptionScope deploymentName
          { properties :=
              { template := armTemplate, parameters := parameters, mode := .incremental,
                whatIfSettings := some {} },
            location := some location }))
    ∧ ((WhatIfDeployToResourceGroup resourceGroup deploymentName armTemplate parameters
          sdkBegin sdkPoll).snd.all
        (fun r => (r.isWhatIfRequest || r.isPoll) && !(r.isCreateOrUpdate || r.isDelete)) = true)
    ∧ ((WhatIfDeployToResourceGroup resourceGroup deploymentName armTemplate parameters
          sdkBegin sdkPoll).snd.head? =
        some (.beginWhatIf resourceGroup deploymentName
          { properties :=
              { template := armTemplate, parameters := parameters, mode := .incremental,
                whatIfSettings := none },
            location := none })) := by
  intro location resourceGroup deploymentName armTemplate parameters sdkBegin sdkPoll
  cases sdkBegin <;> cases sdkPoll <;>
    refine ⟨rfl, rfl, rfl, rfl⟩

end azapi

namespace kubectl

/-- Closed form of executeCommandWithArgs: it passes finalRunArgs to the
process runner, exactly once. -/
theorem executeCommandWithArgs_eq (cli : KubectlCli) (runner : Runner)
    (args : RunArgs) (flags : Option KubeCliFlags) :
    executeCommandWithArgs cli runner args flags =
      (runner (finalRunArgs cli args flags), [finalRunArgs cli args flags]) := by
  cases flags with
  | none =>
    by_cases hc : cli.cwd = "" <;>
      simp [executeCommandWithArgs, finalRunArgs, flagList, RunArgs.withEnrichError,
        RunArgs.withCwd, RunArgs.appendParams, hc]
  | some f =>
    by_cases hc : cli.cwd = "" <;>
      by_cases hd : f.dryRun = "" <;>
        by_cases hn : f.ns = "" <;>
          by_cases ho : f.output = "" <;>
            simp [executeCommandWithArgs, finalRunArgs, flagList, RunArgs.withEnrichError,
              RunArgs.withCwd, RunArgs.appendParams, hc, hd, hn, ho]

/-- Closed form of Exec. -/
theorem exec_eq (cli : KubectlCli) (runner : Runner) (flags : Option KubeCliFlags)
    (args : List String) :
    Exec cli runner flags args =
      (runner { cmd := "kubectl", args := args ++ flagList flags, cwd := cwdOpt cli,
                env := none, stdin := none, enrichError := true },
       [{ cmd := "kubectl", args := args ++ flagList flags, cwd := cwdOpt cli,
          env := none, stdin := none, enrichError := true }]) := by
  have h : finalRunArgs cli ((NewRunArgs "kubectl" []).appendParams args) flags =
      { cmd := "kubectl", args := args ++ flagList flags, cwd := cwdOpt cli,
        env := none, stdin := none, enrichError := true } := by
    simp [finalRunArgs, NewRunArgs, RunArgs.appendParams, cwdOpt]
  rw [Exec, executeCommandWithArgs_eq, h]

/-- Closed form of ApplyWithInput: the command it runs is exactly
applyInputRunArgsSpec. -/
theorem applyWithInput_eq (cli : KubectlCli) (runner : Runner) (input : String)
    (flags : Option KubeCliFlags) :
    ApplyWithInput cli runner input flags =
      ((match runner (applyInputRunArgsSpec cli input flags) with
        | .error err => .error (.wrapped "kubectl apply -f: " err)
        | .ok r => .ok r),
       [applyInputRunArgsSpec cli input flags]) := by
  have h : finalRunArgs cli
      (((NewRunArgs "kubectl" ["apply", "-f", "-"]).withEnv (environ cli.env)).withStdIn input)
      flags = applyInputRunArgsSpec cli input flags := by
    simp [finalRunArgs, NewRunArgs, RunArgs.withEnv, RunArgs.withStdIn,
      applyInputRunArgsSpec, cwdOpt]
  rw [ApplyWithInput, executeCommandWithArgs_eq, h]
  cases runner (applyInputRunArgsSpec cli input flags) <;> simp

end kubectl

namespace kubectl

open azapi (GoError)

/-- The apply command is well-formed in the C5 sense. -/
theorem wellFormed_applyInputRunArgsSpec (cli : KubectlCli) (input : String)
    (flags : Option KubeCliFlags) :
    wellFormedKubectlArgs cli flags (applyInputRunArgsSpec cli input flags) = true := by
  by_cases hc : cli.cwd = "" <;>
    · simp [wellFormedKubectlArgs, applyInputRunArgsSpec, cwdOpt, hc]
      exact List.suffix_append ["apply", "-f", "-"] (flagList flags)

/-- Every command applyTemplate runs is well-formed in the C5 sense. -/
theorem applyTemplate_trace_wf (cli : KubectlCli) (runner : Runner)
    (substEval : SubstEval) (osEnv : String → String) (filePath : String)
    (content : Except GoError String) (flags : Option KubeCliFlags) :
    (applyTemplate cli runner substEval osEnv filePath content flags).snd.all
      (wellFormedKubectlArgs cli flags) = true := by
  cases content with
  | error e => rfl
  | ok yaml =>
    simp only [applyTemplate]
    split
    · rfl
    · rw [applyWithInput_eq]
      split <;> simp [wellFormed_applyInputRunArgsSpec]

/-- Every command the Apply traversal runs is well-formed in the C5 sense. -/
theorem applyEntries_trace_wf (cli : KubectlCli) (runner : Runner)
    (substEval : SubstEval) (osEnv : String → String) (flags : Option KubeCliFlags)
    (dirPath : String) (entries : List FsEntry) :
    (applyEntries cli runner substEval osEnv flags dirPath entries).snd.all
      (wellFormedKubectlArgs cli flags) = true := by
  induction dirPath, entries using applyEntries.induct cli runner substEval osEnv flags with
  | case1 x => simp [applyEntries]
  | case2 directoryPath name err tail => simp [applyEntries]
  | case3 directoryPath name sub rest entryPath err trace heq ih =>
    unfold entryPath at heq
    simp only [applyEntries]
    rw [heq] at ih ⊢
    simpa using ih
  | case4 directoryPath name sub rest entryPath a trace heq ihsub ihrest =>
    unfold entryPath at heq
    simp only [applyEntries]
    rw [heq] at ihsub ⊢
    simp only [List.all_append]
    simp only at ihsub
    simp [ihsub, ihrest]
  | case5 directoryPath name content rest entryPath ext hext err trace heq =>
    unfold entryPath at heq
    unfold ext at hext
    have hwf := applyTemplate_trace_wf cli runner substEval osEnv
      (joinPath directoryPath name) content flags
    simp only [applyEntries]
    rw [if_pos hext]
    rw [heq] at hwf ⊢
    simpa using hwf
  | case6 directoryPath name content rest entryPath ext hext a trace heq ihrest =>
    unfold entryPath at heq
    unfold ext at hext
    have hwf := applyTemplate_trace_wf cli runner substEval osEnv
      (joinPath directoryPath name) content flags
    simp only [applyEntries]
    rw [if_pos hext]
    rw [heq] at hwf ⊢
    simp only [List.all_append]
    simp only at hwf
    simp [hwf, ihrest]
  | case7 directoryPath name content rest ext hext ihrest =>
    unfold ext at hext
    simp only [applyEntries]
    rw [if_neg hext]
    exact ihrest

end kubectl

namespace kubectl

open azapi (GoError)

/-- ConfigUseContext runs exactly the commands its Exec call runs. -/
theorem configUseContext_snd_eq (cli : KubectlCli) (runner : Runner) (name : String)
    (flags : Option KubeCliFlags) :
    (ConfigUseContext cli runner name flags).snd =
      (Exec cli runner flags ["config", "use-context", name]).snd := by
  simp only [ConfigUseContext]
  cases h : Exec cli runner flags ["config", "use-context", name] with
  | mk res tr => cases res <;> rfl

/-- CreateNamespace runs exactly the commands its Exec call runs. -/
theorem createNamespace_snd_eq (cli : KubectlCli) (runner : Runner) (name : String)
    (flags : Option KubeCliFlags) :
    (CreateNamespace cli runner name flags).snd =
      (Exec cli runner flags ["create", "namespace", name]).snd := by
  simp only [CreateNamespace]
  cases h : Exec cli runner flags ["create", "namespace", name] with
  | mk res tr => cases res <;> rfl

/-- CreateSecretGenericFromLiterals runs exactly the commands its Exec call
runs. -/
theorem createSecret_snd_eq (cli : KubectlCli) (runner : Runner) (name : String)
    (secrets : List String) (flags : Option KubeCliFlags) :
    (CreateSecretGenericFromLiterals cli runner name secrets flags).snd =
      (Exec cli runner flags
        (["create", "secret", "generic", name] ++
          secrets.map (fun secret => "--from-literal=" ++ secret))).snd := by
  simp only [CreateSecretGenericFromLiterals]
  cases h : Exec cli runner flags
      (["create", "secret", "generic", name] ++
        secrets.map (fun secret => "--from-literal=" ++ secret)) with
  | mk res tr => cases res <;> rfl

/-- RolloutStatus runs exactly the commands its Exec call runs. -/
theorem rolloutStatus_snd_eq (cli : KubectlCli) (runner : Runner)
    (deploymentName : String) (flags : Option KubeCliFlags) :
    (RolloutStatus cli runner deploymentName flags).snd =
      (Exec cli runner flags ["rollout", "status", "deployment/" ++ deploymentName]).snd := by
  simp only [RolloutStatus]
  cases h : Exec cli runner flags ["rollout", "status", "deployment/" ++ deploymentName] with
  | mk res tr => cases res <;> rfl

/-- Trace of ConfigUseContext. -/
theorem configUseContext_trace (cli : KubectlCli) (runner : Runner) (name : String)
    (flags : Option KubeCliFlags) :
    (ConfigUseContext cli runner name flags).snd =
      [{ cmd := "kubectl", args := ["config", "use-context", name] ++ flagList flags,
         cwd := cwdOpt cli, env := none, stdin := none, enrichError := true }] := by
  rw [configUseContext_snd_eq, exec_eq]

/-- Trace of CreateNamespace. -/
theorem createNamespace_trace (cli : KubectlCli) (runner : Runner) (name : String)
    (flags : Option KubeCliFlags) :
    (CreateNamespace cli runner name flags).snd =
      [{ cmd := "kubectl", args := ["create", "namespace", name] ++ flagList flags,
         cwd := cwdOpt cli, env := none, stdin := none, enrichError := true }] := by
  rw [createNamespace_snd_eq, exec_eq]

/-- Trace of CreateSecretGenericFromLiterals. -/
theorem createSecret_trace (cli : KubectlCli) (runner : Runner) (name : String)
    (secrets : List String) (flags : Option KubeCliFlags) :
    (CreateSecretGenericFromLiterals cli runner name secrets flags).snd =
      [{ cmd := "kubectl",
         args := (["create", "secret", "generic", name] ++
           secrets.map (fun secret => "--from-literal=" ++ secret)) ++ flagList flags,
         cwd := cwdOpt cli, env := none, stdin := none, enrichError := true }] := by
  rw [createSecret_snd_eq, exec_eq]

/-- Trace of RolloutStatus. -/
theorem rolloutStatus_trace (cli : KubectlCli) (runner : Runner) (deploymentName : String)
    (flags : Option KubeCliFlags) :
    (RolloutStatus cli runner deploymentName flags).snd =
      [{ cmd := "kubectl",
         args := ["rollout", "status", "deployment/" ++ deploymentName] ++ flagList flags,
         cwd := cwdOpt cli, env := none, stdin := none, enrichError := true }] := by
  rw [rolloutStatus_snd_eq, exec_eq]

/-- Trace of ApplyWithInput. -/
theorem applyWithInput_trace (cli : KubectlCli) (runner : Runner) (input : String)
    (flags : Option KubeCliFlags) :
    (ApplyWithInput cli runner input flags).snd =
      [applyInputRunArgsSpec cli input flags] := by
  rw [applyWithInput_eq]

/-- ConfigView runs exactly the commands its executeCommandWithArgs call
runs, and its final RunArgs in closed form. -/
theorem configView_trace (cli : KubectlCli) (runner : Runner) (dir : String)
    (merge flatten : Bool) (flags : Option KubeCliFlags) :
    (ConfigView cli runner (.ok dir) merge flatten flags).snd =
      [{ cmd := "kubectl",
         args := ((["config", "view"] ++ (if merge then ["--merge"] else []) ++
           (if flatten then ["--flatten"] else [])) ++ flagList flags),
         cwd := if cli.cwd = "" then some dir else some cli.cwd,
         env := some (environ cli.env), stdin := none, enrichError := true }] := by
  simp only [ConfigView, executeCommandWithArgs_eq]
  cases merge <;> cases flatten <;>
    · split <;>
        · by_cases hc : cli.cwd = "" <;>
            simp [finalRunArgs, NewRunArgs, RunArgs.withCwd, RunArgs.withEnv, hc]

end kubectl

namespace kubectl

open azapi (GoError)

/-- Every command Apply runs is well-formed in the C5 sense. -/
theorem apply_trace_wf (cli : KubectlCli) (runner : Runner) (substEval : SubstEval)
    (osEnv : String → String) (path : String)
    (listing : Except GoError (List FsEntry)) (flags : Option KubeCliFlags) :
    (Apply cli runner substEval osEnv path listing flags).snd.all
      (wellFormedKubectlArgs cli flags) = true := by
  cases listing with
  | error e => rfl
  | ok entries =>
    simp only [Apply, applyTemplates]
    have h := applyEntries_trace_wf cli runner substEval osEnv flags path entries
    cases happ : applyEntries cli runner substEval osEnv flags path entries with
    | mk res trace =>
      rw [happ] at h
      cases res <;> simpa using h

/-- C5: every public kubectl operation shells out through the generic
process runner with program name kubectl, enriched-error mode set, the
receiver's working directory when it was set non-empty, and — when flags are
given — the flag arguments --dry-run, then -n, then -o appended after the
operation's own arguments. The single-command operations' traces are given
in closed form; every command the Apply traversal runs satisfies the same
well-formedness predicate. -/
theorem c5_kubectl_command_assembly :
    ∀ (cli : KubectlCli) (runner : Runner) (flags : Option KubeCliFlags)
      (args secrets : List String) (name input deploymentName dir path : String)
      (merge flatten : Bool) (substEval : SubstEval) (osEnv : String → String)
      (listing : Except azapi.GoError (List FsEntry)),
      (Exec cli runner flags args).snd =
        [{ cmd := "kubectl", args := args ++ flagList flags, cwd := cwdOpt cli,
           env := none, stdin := none, enrichError := true }]
    ∧ (ConfigUseContext cli runner name flags).snd =
        [{ cmd := "kubectl", args := ["config", "use-context", name] ++ flagList flags,
           cwd := cwdOpt cli, env := none, stdin := none, enrichError := true }]
    ∧ (CreateNamespace cli runner name flags).snd =
        [{ cmd := "kubectl", args := ["create", "namespace", name] ++ flagList flags,
           cwd := cwdOpt cli, env := none, stdin := none, enrichError := true }]
    ∧ (CreateSecretGenericFromLiterals cli runner name secrets flags).snd =
        [{ cmd := "kubectl",
           args := (["create", "secret", "generic", name] ++
             secrets.map (fun secret => "--from-literal=" ++ secret)) ++ flagList flags,
           cwd := cwdOpt cli, env := none, stdin := none, enrichError := true }]
    ∧ (RolloutStatus cli runner deploymentName flags).snd =
        [{ cmd := "kubectl",
           args := ["rollout", "status", "deployment/" ++ deploymentName] ++ flagList flags,
           cwd := cwdOpt cli, env := none, stdin := none, enrichError := true }]
    ∧ (ApplyWithInput cli runner input flags).snd =
        [{ cmd := "kubectl", args := ["apply", "-f", "-"] ++ flagList flags,
           cwd := cwdOpt cli, env := some (environ cli.env), stdin := some input,
           enrichError := true }]
    ∧ (ConfigView cli runner (.ok dir) merge flatten flags).snd =
        [{ cmd := "kubectl",
           args := ((["config", "view"] ++ (if merge then ["--merge"] else []) ++
             (if flatten then ["--flatten"] else [])) ++ flagList flags),
           cwd := if cli.cwd = "" then some dir else some cli.cwd,
           env := some (environ cli.env), stdin := none, enrichError := true }]
    ∧ (Apply cli runner substEval osEnv path listing flags).snd.all
        (wellFormedKubectlArgs cli flags) = true := by
  intro cli runner flags args secrets name input deploymentName dir path
    merge flatten substEval osEnv listing
  exact ⟨by rw [exec_eq], configUseContext_trace cli runner name flags,
    createNamespace_trace cli runner name flags,
    createSecret_trace cli runner name secrets flags,
    rolloutStatus_trace cli runner deploymentName flags,
    applyWithInput_trace cli runner input flags,
    configView_trace cli runner dir merge flatten flags,
    apply_trace_wf cli runner substEval osEnv path listing flags⟩

/-- C10: SetEnv and Cwd only update the receiver's env and cwd fields and
run no command; the Exec-built operations (ConfigUseContext,
CreateNamespace, CreateSecretGenericFromLiterals, RolloutStatus, and Exec
itself) hand the process runner no environment, while ConfigView and
ApplyWithInput hand it exactly the env map set via SetEnv. -/
theorem c10_env_not_passed_to_exec :
    ∀ (cli : KubectlCli) (runner : Runner) (flags : Option KubeCliFlags)
      (envValues : List (String × String)) (cwd : String)
      (args secrets : List String) (name input deploymentName dir : String)
      (merge flatten : Bool),
      SetEnv cli envValues = ({ cli with env := envValues }, [])
    ∧ Cwd cli cwd = ({ cli with cwd := cwd }, [])
    ∧ (Exec cli runner flags args).snd.all (fun r => r.env == none) = true
    ∧ (ConfigUseContext cli runner name flags).snd.all (fun r => r.env == none) = true
    ∧ (CreateNamespace cli runner name flags).snd.all (fun r => r.env == none) = true
    ∧ (CreateSecretGenericFromLiterals cli runner name secrets flags).snd.all
        (fun r => r.env == none) = true
    ∧ (RolloutStatus cli runner deploymentName flags).snd.all
        (fun r => r.env == none) = true
    ∧ (ApplyWithInput cli runner input flags).snd.all
        (fun r => r.env == some (environ cli.env)) = true
    ∧ (ConfigView cli runner (.ok dir) merge flatten flags).snd.all
        (fun r => r.env == some (environ cli.env)) = true := by
  intro cli runner flags envValues cwd args secrets name input deploymentName dir
    merge flatten
  refine ⟨rfl, rfl, ?_, ?_, ?_, ?_, ?_, ?_, ?_⟩
  · rw [exec_eq]; simp
  · rw [configUseContext_trace]; simp
  · rw [createNamespace_trace]; simp
  · rw [createSecret_trace]; simp
  · rw [rolloutStatus_trace]; simp
  · rw [applyWithInput_trace]; simp [applyInputRunArgsSpec]
  · rw [configView_trace]; simp

end kubectl

namespace azapi

/-- An error occurs in its own wrapping chain. -/
theorem GoError.contains_self (e : GoError) : e.contains e = true := by
  unfold GoError.contains
  rw [if_pos rfl]

/-- Wrapping preserves occurrence in the wrapping chain. -/
theorem GoError.contains_wrapped (m : String) (e target : GoError)
    (h : e.contains target = true) :
    (GoError.wrapped m e).contains target = true := by
  unfold GoError.contains
  split
  · rfl
  · exact h

end azapi

namespace kubectl

open azapi (GoError)

/-- How the claim side relates to the source side at a result pair: same
trace of run commands, same success, and on failure the source's error has
the claim's error in its wrapping chain. -/
def ResultMatches (claim src : Except GoError Unit × List RunArgs) : Prop :=
  src.snd = claim.snd
  ∧ (match claim.fst, src.fst with
     | .error e, .error e2 => e2.contains e = true
     | .ok _, .ok _ => True
     | _, _ => False)

/-- applyTemplate behaves as C6 claims for one manifest file. -/
theorem applyTemplate_claim_equiv (cli : KubectlCli) (runner : Runner)
    (substEval : SubstEval) (osEnv : String → String) (filePath : String)
    (content : Except GoError String) (flags : Option KubeCliFlags) :
    ResultMatches (applyFileClaim cli runner substEval osEnv content flags)
      (applyTemplate cli runner substEval osEnv filePath content flags) := by
  have hres : (fun name =>
      match cli.env.lookup name with
      | some val => val
      | none => osEnv name) = claimResolver cli osEnv := by
    funext n
    cases h : cli.env.lookup n <;> simp [claimResolver, h]
  cases content with
  | error e =>
    exact ⟨rfl, by
      simp only [applyTemplate, applyFileClaim]
      exact azapi.GoError.contains_wrapped _ e e (azapi.GoError.contains_self e)⟩
  | ok yaml =>
    simp only [applyTemplate, applyFileClaim, hres]
    cases hs : substEval yaml (claimResolver cli osEnv) with
    | error e =>
      exact ⟨rfl, azapi.GoError.contains_wrapped _ e e (azapi.GoError.contains_self e)⟩
    | ok replaced =>
      dsimp only
      rw [applyWithInput_eq]
      cases hr : runner (applyInputRunArgsSpec cli replaced flags) with
      | error e =>
        refine ⟨rfl, ?_⟩
        exact azapi.GoError.contains_wrapped _ _ e
          (azapi.GoError.contains_wrapped _ e e (azapi.GoError.contains_self e))
      | ok r => exact ⟨rfl, trivial⟩

end kubectl

namespace kubectl

open azapi (GoError)

/-- The source traversal applyTemplates matches the claimed traversal on
every directory tree: same commands run, same success, and on failure the
source's wrapped error carries the claimed (raw) error in its chain. -/
theorem applyEntries_claim_equiv (cli : KubectlCli) (runner : Runner)
    (substEval : SubstEval) (osEnv : String → String) (flags : Option KubeCliFlags)
    (dirPath : String) (entries : List FsEntry) :
    ResultMatches (applyEntriesClaim cli runner substEval osEnv flags entries)
      (applyEntries cli runner substEval osEnv flags dirPath entries) := by
  induction dirPath, entries using applyEntries.induct cli runner substEval osEnv flags with
  | case1 x =>
    refine ⟨?_, ?_⟩ <;> simp [applyEntries, applyEntriesClaim]
  | case2 directoryPath name err tail =>
    constructor
    · simp only [applyEntries, applyEntriesClaim]
    · simp only [applyEntries, applyEntriesClaim]
      exact azapi.GoError.contains_wrapped _ _ err
        (azapi.GoError.contains_wrapped _ err err (azapi.GoError.contains_self err))
  | case3 directoryPath name sub rest entryPath err trace heq ih =>
    unfold entryPath at heq
    rcases hc : applyEntriesClaim cli runner substEval osEnv flags sub with ⟨resC, trC⟩
    obtain ⟨ih1, ih2⟩ := ih
    rw [hc, heq] at ih1 ih2
    simp only at ih1
    simp only [ResultMatches, applyEntries, applyEntriesClaim]
    rw [hc, heq]
    dsimp only
    cases resC with
    | error eC =>
      exact ⟨ih1 ▸ rfl, azapi.GoError.contains_wrapped _ err eC ih2⟩
    | ok u => exact absurd ih2 (by simp)
  | case4 directoryPath name sub rest entryPath a trace heq ihsub ihrest =>
    unfold entryPath at heq
    rcases hc : applyEntriesClaim cli runner substEval osEnv flags sub with ⟨resC, trC⟩
    obtain ⟨ih1, ih2⟩ := ihsub
    rw [hc, heq] at ih1 ih2
    simp only at ih1
    simp only [ResultMatches, applyEntries, applyEntriesClaim]
    rw [hc, heq]
    dsimp only
    cases resC with
    | error eC => exact absurd ih2 (by simp)
    | ok u =>
      obtain ⟨ihr1, ihr2⟩ := ihrest
      exact ⟨by rw [ih1, ihr1], ihr2⟩
  | case5 directoryPath name content rest entryPath ext hext err trace heq =>
    unfold entryPath at heq
    unfold ext at hext
    have hfile := applyTemplate_claim_equiv cli runner substEval osEnv
      (joinPath directoryPath name) content flags
    rcases hcf : applyFileClaim cli runner substEval osEnv content flags with ⟨resF, trF⟩
    obtain ⟨hf1, hf2⟩ := hfile
    rw [hcf, heq] at hf1 hf2
    simp only at hf1
    simp only [ResultMatches, applyEntries, applyEntriesClaim]
    rw [if_pos hext, if_pos hext, hcf, heq]
    dsimp only
    cases resF with
    | error eF =>
      exact ⟨hf1 ▸ rfl, azapi.GoError.contains_wrapped _ err eF hf2⟩
    | ok u => exact absurd hf2 (by simp)
  | case6 directoryPath name content rest entryPath ext hext a trace heq ihrest =>
    unfold entryPath at heq
    unfold ext at hext
    have hfile := applyTemplate_claim_equiv cli runner substEval osEnv
      (joinPath directoryPath name) content flags
    rcases hcf : applyFileClaim cli runner substEval osEnv content flags with ⟨resF, trF⟩
    obtain ⟨hf1, hf2⟩ := hfile
    rw [hcf, heq] at hf1 hf2
    simp only at hf1
    simp only [ResultMatches, applyEntries, applyEntriesClaim]
    rw [if_pos hext, if_pos hext, hcf, heq]
    dsimp only
    cases resF with
    | error eF => exact absurd hf2 (by simp)
    | ok u =>
      obtain ⟨ihr1, ihr2⟩ := ihrest
      exact ⟨by rw [hf1, ihr1], ihr2⟩
  | case7 directoryPath name content rest ext hext ihrest =>
    unfold ext at hext
    simp only [ResultMatches, applyEntries, applyEntriesClaim]
    rw [if_neg hext, if_neg hext]
    exact ihrest

end kubectl

namespace kubectl

open azapi (GoError)

/-- C6: Apply is the claimed manifest traversal. Against the reference
written from the claim's words (applyClaim: recurse into subdirectories,
process exactly the .yaml/.yml regular entries by reading, substituting
variables — env map first, process environment otherwise — and applying the
result via kubectl apply -f - on stdin, skip other extensions, stop at the
first failing entry), Apply runs exactly the same commands in the same
order, succeeds exactly when the reference succeeds, and on failure returns
an error whose wrapping chain carries the failing entry's own error. -/
theorem c6_apply_manifest_traversal :
    ∀ (cli : KubectlCli) (runner : Runner) (substEval : SubstEval)
      (osEnv : String → String) (flags : Option KubeCliFlags) (path : String)
      (listing : Except azapi.GoError (List FsEntry)),
      ResultMatches (applyClaim cli runner substEval osEnv listing flags)
        (Apply cli runner substEval osEnv path listing flags) := by
  intro cli runner substEval osEnv flags path listing
  cases listing with
  | error e =>
    constructor
    · rfl
    · simp only [Apply, applyTemplates, applyClaim]
      exact azapi.GoError.contains_wrapped _ _ e
        (azapi.GoError.contains_wrapped _ e e (azapi.GoError.contains_self e))
  | ok entries =>
    have h := applyEntries_claim_equiv cli runner substEval osEnv flags path entries
    rcases hs : applyEntries cli runner substEval osEnv flags path entries with ⟨res, tr⟩
    rcases hc : applyEntriesClaim cli runner substEval osEnv flags entries with ⟨resC, trC⟩
    obtain ⟨h1, h2⟩ := h
    rw [hs, hc] at h1 h2
    simp only at h1
    simp only [ResultMatches, Apply, applyTemplates, applyClaim]
    rw [hs, hc]
    dsimp only
    cases res with
    | error err =>
      cases resC with
      | error eC =>
        exact ⟨h1 ▸ rfl, azapi.GoError.contains_wrapped _ err eC h2⟩
      | ok u => exact absurd h2 (by simp)
    | ok u =>
      cases resC with
      | error eC => exact absurd h2 (by simp)
      | ok u2 => exact ⟨h1 ▸ rfl, trivial⟩

end kubectl

namespace mocks

/-- C7: NewMockContext wires the fakes into the DI container: the container
resolves each registered interface type to the corresponding mock component
of the returned MockContext — ioc.ServiceLocator to the container itself,
azcore.TokenCredential to the mock credentials, httputil.HttpClient to the
mock HTTP client, exec.CommandRunner to the mock command runner,
input.Console to the mock console and config.FileConfigManager to the mock
config manager — and both the core and the ARM client options carry the
mock HTTP client as their transport. -/
theorem c7_mock_context_wiring :
    resolve NewMockContext.container .serviceLocator = some .containerItself
  ∧ resolve NewMockContext.container .tokenCredential = some NewMockContext.credentials
  ∧ resolve NewMockContext.container .httpClient = some NewMockContext.httpClient
  ∧ resolve NewMockContext.container .commandRunner = some NewMockContext.commandRunner
  ∧ resolve NewMockContext.container .console = some NewMockContext.console
  ∧ resolve NewMockContext.container .fileConfigManager = some NewMockContext.configManager
  ∧ NewMockContext.credentials = .credentials
  ∧ NewMockContext.httpClient = .httpClient
  ∧ NewMockContext.commandRunner = .commandRunner
  ∧ NewMockContext.console = .console
  ∧ NewMockContext.configManager = .configManager
  ∧ NewMockContext.coreClientOptions.transport = .mockHttpClient
  ∧ NewMockContext.armClientOptions.clientOptions.transport = .mockHttpClient := by
  refine ⟨?_, ?_, ?_, ?_, ?_, ?_, rfl, rfl, rfl, rfl, rfl, rfl, rfl⟩ <;> decide

end mocks

namespace azapi

/-- A well-shaped raw output entry converts to its type and value. -/
theorem convertOutputEntry_good (entry : String × GoValue)
    (h : goodOutputEntry entry = true) :
    convertOutputEntry entry =
      .ok (entry.1,
        { outputType := outputTypeOf entry.2, value := outputValueOf entry.2 }) := by
  rcases entry with ⟨k, v⟩
  cases v with
  | goNil => simp [goodOutputEntry] at h
  | str s => simp [goodOutputEntry] at h
  | num n => simp [goodOutputEntry] at h
  | boolean b => simp [goodOutputEntry] at h
  | arr elems => simp [goodOutputEntry] at h
  | obj innerValue =>
    cases hl : (innerValue.lookup "type").getD .goNil with
    | str t => simp [convertOutputEntry, outputTypeOf, outputValueOf, hl]
    | goNil => simp [goodOutputEntry, hl] at h
    | num n => simp [goodOutputEntry, hl] at h
    | boolean b => simp [goodOutputEntry, hl] at h
    | arr elems => simp [goodOutputEntry, hl] at h
    | obj f => simp [goodOutputEntry, hl] at h

/-- An ill-shaped raw output entry makes the type assertion panic. -/
theorem convertOutputEntry_bad (entry : String × GoValue)
    (h : goodOutputEntry entry = false) :
    convertOutputEntry entry = .error "interface conversion: type assertion failed" := by
  rcases entry with ⟨k, v⟩
  cases v with
  | goNil => rfl
  | str s => rfl
  | num n => rfl
  | boolean b => rfl
  | arr elems => rfl
  | obj innerValue =>
    cases hl : (innerValue.lookup "type").getD .goNil with
    | str t => simp [goodOutputEntry, hl] at h
    | goNil => simp [convertOutputEntry, hl]
    | num n => simp [convertOutputEntry, hl]
    | boolean b => simp [convertOutputEntry, hl]
    | arr elems => simp [convertOutputEntry, hl]
    | obj f => simp [convertOutputEntry, hl]

/-- The conversion loop succeeds exactly when every entry is well shaped. -/
theorem createDeploymentOutputLoop_isOk (fields : List (String × GoValue)) :
    exceptIsOk (createDeploymentOutputLoop fields) = fields.all goodOutputEntry := by
  induction fields with
  | nil => rfl
  | cons entry rest ih =>
    by_cases h : goodOutputEntry entry = true
    · rw [List.all_cons, h, Bool.true_and, ← ih]
      simp only [createDeploymentOutputLoop, convertOutputEntry_good entry h]
      cases hr : createDeploymentOutputLoop rest <;> simp [exceptIsOk]
    · rw [Bool.not_eq_true] at h
      rw [List.all_cons, h, Bool.false_and]
      simp only [createDeploymentOutputLoop, convertOutputEntry_bad entry h]
      rfl

/-- The conversion loop on well-shaped input, in closed form. -/
theorem createDeploymentOutputLoop_ok (fields : List (String × GoValue))
    (h : fields.all goodOutputEntry = true) :
    createDeploymentOutputLoop fields =
      .ok (fields.map (fun entry =>
        (entry.1, { outputType := outputTypeOf entry.2, value := outputValueOf entry.2 }))) := by
  induction fields with
  | nil => rfl
  | cons entry rest ih =>
    rw [List.all_cons, Bool.and_eq_true] at h
    simp [createDeploymentOutputLoop, convertOutputEntry_good entry h.1, ih h.2]

/-- C9: CreateDeploymentOutput is partial at its public interface. A nil
input yields the empty (non-nil) map; a map input converts successfully
exactly when every value is itself a map carrying a string-valued "type"
key, each entry then becoming an AzCliDeploymentOutput from its "type" and
"value" entries; every non-nil input of any other shape — and every map
with an ill-shaped value, as the concrete final conjunct shows — hits an
unchecked type assertion, the error branch of this total embedding. -/
theorem c9_create_deployment_output_shape :
    ∀ (fields : List (String × GoValue)) (s : String) (n : Int) (b : Bool)
      (elems : List GoValue),
      CreateDeploymentOutput .goNil = .ok []
    ∧ exceptIsOk (CreateDeploymentOutput (.obj fields)) = fields.all goodOutputEntry
    ∧ (fields.all goodOutputEntry = true →
        CreateDeploymentOutput (.obj fields) =
          .ok (fields.map (fun entry =>
            (entry.1,
             { outputType := outputTypeOf entry.2, value := outputValueOf entry.2 }))))
    ∧ exceptIsOk (CreateDeploymentOutput (.str s)) = false
    ∧ exceptIsOk (CreateDeploymentOutput (.num n)) = false
    ∧ exceptIsOk (CreateDeploymentOutput (.boolean b)) = false
    ∧ exceptIsOk (CreateDeploymentOutput (.arr elems)) = false
    ∧ CreateDeploymentOutput (.obj [("out", .str "oops")]) =
        .error "interface conversion: type assertion failed" := by
  intro fields s n b elems
  refine ⟨rfl, ?_, ?_, rfl, rfl, rfl, rfl, rfl⟩
  · exact createDeploymentOutputLoop_isOk fields
  · intro h
    exact createDeploymentOutputLoop_ok fields h

end azapi
